import Mathlib

/-!
Verification development for the post-solving statistics module of the
network-optimization auditing library (src/pypsa/stats.py).

The module is shallowly embedded: pandas DataFrames indexed by snapshots with
one column per entity become either association lists from entity ids to value
lists, or total functions from a snapshot index to rationals; machine floats
become exact rationals (with an explicit extended-value type where the IEEE
special values not-a-number and signed infinity are observable behaviour of
the code, namely in the curtailment calculator); code that can raise becomes
an Except value.  Snapshot weightings are modelled as natural (integer-hour)
durations so that the standing-loss factor (1 - loss) ^ weight stays inside
the rationals.
-/

namespace PyPSA

deriving instance DecidableEq for Except

/-- Minimum of a list of rationals; none models the pandas NaN that min
returns on an empty frame. -/
def listMin : List ℚ → Option ℚ
  | [] => none
  | x :: xs => some (xs.foldl min x)

/-! ## Cost accounting engine (`calculate_operational_cost`, lines 24-75)

A static attribute column is an association list from entity id to a rational;
a time panel column is an association list from entity id to its per-snapshot
series.  `hasattr(n, component_name)` is modelled by bundling each component
kind's static table and time panels into one `Option` field of the network. -/

/-- Static-column lookup (pandas alignment of a Series by label); the inputs
used in this development always have the panel columns contained in the static
index, which is the well-formedness the source assumes. -/
def lookupQ (xs : List (String × ℚ)) (k : String) : ℚ :=
  ((xs.find? (fun p => p.1 == k)).map (fun p => p.2)).getD 0

/-- Line 39: `amounts[amounts < 0] = 0`.  Note this is an in-place update of
the DataFrame stored in the network's time-panel dictionary, so the clipped
panel is part of the post-call network state. -/
def clipPanel (p : List (String × List ℚ)) : List (String × List ℚ) :=
  p.map (fun col => (col.1, col.2.map (fun x => if x < 0 then 0 else x)))

/-- Lines 45-49: `full_costs = amounts.mul(costs)` summed over snapshots and
entities, with `costs` the scalar marginal-cost attribute. -/
def scalarDriverCost (costs : List (String × ℚ)) (panel : List (String × List ℚ)) : ℚ :=
  (panel.map (fun col => (col.2.map (fun x => x * lookupQ costs col.1)).sum)).sum

/-- Lines 54-57: the source fetches `amounts` a second time under the name
`time_costs` (it reads the amount field of the time panels, not the
marginal-cost field) and multiplies it by `amounts`; by this point the panel
has already been clipped in place, so each summand is the square of the
clipped dispatch. -/
def timeDriverCost (panel : List (String × List ℚ)) : ℚ :=
  (panel.map (fun col => (col.2.map (fun x => x * x)).sum)).sum

/-- Lines 63-65: count of consecutive differences of a status series equal to
`v` (1 for startups, -1 for shutdowns); the first row of `diff` is NaN and
compares unequal to everything, which the pairwise zip reproduces. -/
def transCount (v : ℚ) (xs : List ℚ) : ℚ :=
  ((xs.zip xs.tail).map (fun ab => if ab.2 - ab.1 = v then (1 : ℚ) else 0)).sum

/-- Static table and time panels of the generators component.  The
`marginal_cost_t` panel is the time-varying marginal cost held by the network;
the code path under study never reads it. -/
structure GenData where
  marginal_cost : List (String × ℚ)
  start_up_cost : List (String × ℚ)
  shut_down_cost : List (String × ℚ)
  p_t : List (String × List ℚ)
  marginal_cost_t : List (String × List ℚ)
  status_t : List (String × List ℚ)
deriving DecidableEq

/-- Static table and time panels of a storage-units or stores component, as
seen by the marginal-cost loop. -/
structure MCData where
  marginal_cost : List (String × ℚ)
  p_t : List (String × List ℚ)
  marginal_cost_t : List (String × List ℚ)
deriving DecidableEq

/-- The slice of the network read (and written) by
`calculate_operational_cost`; a `none` component kind is one the network does
not have (`hasattr` is false, and the corresponding `_t` panels are missing
too). -/
structure OpNetwork where
  generators : Option GenData
  storage_units : Option MCData
  stores : Option MCData
deriving DecidableEq

/-- Return value of `calculate_operational_cost` (line 75). -/
structure OpCostResult where
  total_marginal_cost : ℚ
  per_driver : List (String × ℚ)
  commitment_cost : ℚ
deriving DecidableEq

/-- Lines 67-73: startup/shutdown counts per status column dotted with the
per-entity cost attributes filtered to the status-panel columns. -/
def commitmentCost (g : GenData) : ℚ :=
  (g.status_t.map (fun col => lookupQ g.start_up_cost col.1 * transCount 1 col.2)).sum
  + (g.status_t.map (fun col => lookupQ g.shut_down_cost col.1 * transCount (-1) col.2)).sum

/-- Lines 24-75.  The loop clips each present kind's amount panel in place and
accumulates the per-driver marginal costs; lines 62-73 then access the
generators' status panel and cost attributes unconditionally, which raises
when the network has no generators component.  The returned pair carries the
post-call network state, whose amount panels have been clipped. -/
def calculate_operational_cost (n : OpNetwork) :
    Except String (OpCostResult × OpNetwork) :=
  let gen' := n.generators.map (fun g => { g with p_t := clipPanel g.p_t })
  let su' := n.storage_units.map (fun s => { s with p_t := clipPanel s.p_t })
  let st' := n.stores.map (fun s => { s with p_t := clipPanel s.p_t })
  let genDriver : List (String × ℚ) :=
    match gen' with
    | some g => [("generators__p", scalarDriverCost g.marginal_cost g.p_t + timeDriverCost g.p_t)]
    | none => []
  let suDriver : List (String × ℚ) :=
    match su' with
    | some s => [("storage_units__p", scalarDriverCost s.marginal_cost s.p_t + timeDriverCost s.p_t)]
    | none => []
  let stDriver : List (String × ℚ) :=
    match st' with
    | some s => [("stores__p", scalarDriverCost s.marginal_cost s.p_t + timeDriverCost s.p_t)]
    | none => []
  let per_driver := genDriver ++ suDriver ++ stDriver
  let total := (per_driver.map (fun d => d.2)).sum
  match gen' with
  | none => Except.error ("AttributeError: no generators component")
  | some g =>
      Except.ok ({ total_marginal_cost := total, per_driver := per_driver,
                   commitment_cost := commitmentCost g },
                 { generators := gen', storage_units := su', stores := st' })

/-- One generator with scalar marginal cost 3, dispatch 2 in the single
snapshot, and time-varying marginal cost 7 in that snapshot. -/
def c1gen : GenData :=
  { marginal_cost := [("g", 3)], start_up_cost := [("g", 0)], shut_down_cost := [("g", 0)],
    p_t := [("g", [2])], marginal_cost_t := [("g", [7])], status_t := [] }

def opNetTV : OpNetwork :=
  { generators := some c1gen, storage_units := none, stores := none }

/-- One generator whose dispatch panel contains a negative entry. -/
def c5gen : GenData :=
  { marginal_cost := [("g", 0)], start_up_cost := [("g", 0)], shut_down_cost := [("g", 0)],
    p_t := [("g", [-1])], marginal_cost_t := [], status_t := [] }

def opNetMut : OpNetwork :=
  { generators := some c5gen, storage_units := none, stores := none }

def c5genAfter : GenData := { c5gen with p_t := [("g", [0])] }

def opNetMutAfter : OpNetwork :=
  { generators := some c5genAfter, storage_units := none, stores := none }

def c6gen : GenData :=
  { marginal_cost := [("g", 0)], start_up_cost := [("g", 0)], shut_down_cost := [("g", 0)],
    p_t := [("g", [1])], marginal_cost_t := [], status_t := [] }

def c6su : MCData :=
  { marginal_cost := [("s", 0)], p_t := [("s", [0])], marginal_cost_t := [] }

/-- Network missing only the stores kind. -/
def opNetNoStores : OpNetwork :=
  { generators := some c6gen, storage_units := some c6su, stores := none }

/-- Network missing the generators kind (and hence the status panel). -/
def opNetNoGens : OpNetwork :=
  { generators := none, storage_units := some c6su, stores := some ⟨[("t", 0)], [("t", [0])], []⟩ }

/-! ## Storage-unit reconciliation (`describe_storage_unit_contraints`, lines 126-173)

Per-entity series are total functions on the snapshot index 0, ..., S-1; this
models the shared pandas snapshot index of the panels. -/

/-- Static attributes and time-panel columns of one storage unit. -/
structure StorageUnit where
  name : String
  standing_loss : ℚ
  efficiency_store : ℚ
  efficiency_dispatch : ℚ
  cyclic_state_of_charge : Bool
  state_of_charge_initial : ℚ
  p_store : ℕ → ℚ
  p_dispatch : ℕ → ℚ
  inflow : ℕ → ℚ
  spill : ℕ → ℚ
  state_of_charge : ℕ → ℚ

/-- The slice of the network read by `describe_storage_unit_contraints`:
`has_p_store` is the test `'p_store' in pnl` of line 155. -/
structure SUNetwork where
  units : List StorageUnit
  S : ℕ
  weight : ℕ → ℕ
  has_p_store : Bool

/-- Line 146: `stand_eff = (1 - standing_loss) ^ eh`. -/
def standEff (w : ℕ → ℕ) (u : StorageUnit) (t : ℕ) : ℚ :=
  (1 - u.standing_loss) ^ (w t)

/-- Line 158: `store = store_eff * eh * pnl.p_store`. -/
def suStoreTerm (w : ℕ → ℕ) (u : StorageUnit) (t : ℕ) : ℚ :=
  u.efficiency_store * (w t : ℚ) * u.p_store t

/-- Line 159: `dispatch = 1/dispatch_eff * eh * pnl.p_dispatch`. -/
def suDispatchTerm (w : ℕ → ℕ) (u : StorageUnit) (t : ℕ) : ℚ :=
  1 / u.efficiency_dispatch * (w t : ℚ) * u.p_dispatch t

/-- Line 149: `inflow = get_as_dense(n, c, 'inflow') * eh`. -/
def suInflowTerm (w : ℕ → ℕ) (u : StorageUnit) (t : ℕ) : ℚ :=
  (w t : ℚ) * u.inflow t

/-- Line 150: `spill = eh[pnl.spill.columns] * pnl.spill`. -/
def suSpillTerm (w : ℕ → ℕ) (u : StorageUnit) (t : ℕ) : ℚ :=
  (w t : ℚ) * u.spill t

/-- Lines 160-161: `start = soc.iloc[-1].where(sus.cyclic_state_of_charge,
sus.state_of_charge_initial)`, with S the number of snapshots. -/
def suStart (S : ℕ) (u : StorageUnit) : ℚ :=
  if u.cyclic_state_of_charge then u.state_of_charge (S - 1)
  else u.state_of_charge_initial

/-- Line 162: `previous_soc = stand_eff * soc.shift().fillna(start)`. -/
def suPrev (S : ℕ) (w : ℕ → ℕ) (u : StorageUnit) (t : ℕ) : ℚ :=
  standEff w u t * (if t = 0 then suStart S u else u.state_of_charge (t - 1))

/-- Lines 164-167: the reconstructed state of charge. -/
def suReconstructed (S : ℕ) (w : ℕ → ℕ) (u : StorageUnit) (t : ℕ) : ℚ :=
  suPrev S w u t + suStoreTerm w u t + suInflowTerm w u t
    - suDispatchTerm w u t - suSpillTerm w u t

/-- Line 168: `reconstructed - soc`. -/
def suDeviation (S : ℕ) (w : ℕ → ℕ) (u : StorageUnit) (t : ℕ) : ℚ :=
  suReconstructed S w u t - u.state_of_charge t

/-- Lines 152-153: the entries of `inflow[spill.columns] - spill`, flattened
over all (entity, snapshot) pairs. -/
def spillagePanel (net : SUNetwork) : List ℚ :=
  (net.units.map (fun u => (List.range net.S).map (fun t =>
    suInflowTerm net.weight u t - suSpillTerm net.weight u t))).flatten

/-- Lines 168-169: the deviation panel behind the SOC Balance column. -/
def socBalancePanel (net : SUNetwork) : List (String × List ℚ) :=
  net.units.map (fun u => (u.name, (List.range net.S).map (suDeviation net.S net.weight u)))

/-- The returned description table: the Spillage Limit statistic and, when the
store/dispatch decomposition is available, the SOC Balance column. -/
structure SUDescription where
  spillage_limit : Option ℚ
  soc_balance : Option (List (String × List ℚ))
deriving DecidableEq

/-- Lines 126-173; returns none when the storage-unit index is empty
(line 137), otherwise the description table. -/
def describe_storage_unit_contraints (net : SUNetwork) : Option SUDescription :=
  if net.units.isEmpty then none
  else some { spillage_limit := listMin (spillagePanel net),
              soc_balance :=
                if net.has_p_store then some (socBalancePanel net) else none }

/-- The spec scenario: one non-cyclic unit, 3 snapshots, unit weights, no
losses, initial state 10, store power [5,0,0], dispatch power [0,3,0], zero
inflow and spill, unit efficiencies, reported states [15,12,12]. -/
def scenarioUnit : StorageUnit :=
  { name := "su1", standing_loss := 0, efficiency_store := 1, efficiency_dispatch := 1,
    cyclic_state_of_charge := false, state_of_charge_initial := 10,
    p_store := fun t => if t = 0 then 5 else 0,
    p_dispatch := fun t => if t = 1 then 3 else 0,
    inflow := fun _ => 0, spill := fun _ => 0,
    state_of_charge := fun t => if t = 0 then 15 else 12 }

/-- A unit with inflow [4,1] and spill [1,1], used with the decomposition
panels absent. -/
def c10unit : StorageUnit :=
  { name := "su2", standing_loss := 0, efficiency_store := 1, efficiency_dispatch := 1,
    cyclic_state_of_charge := false, state_of_charge_initial := 0,
    p_store := fun _ => 0, p_dispatch := fun _ => 0,
    inflow := fun t => if t = 0 then 4 else 1, spill := fun _ => 1,
    state_of_charge := fun _ => 0 }

def c10net : SUNetwork :=
  { units := [c10unit], S := 2, weight := fun _ => 1, has_p_store := false }

/-! ## Store reconciliation (`describe_store_contraints`, lines 223-242) -/

/-- Static attributes and time-panel columns of one store. -/
structure Store where
  standing_loss : ℚ
  e_cyclic : Bool
  e_initial : ℚ
  p : ℕ → ℚ
  e : ℕ → ℚ

/-- Line 238: `start = pnl.e.iloc[-1].where(stores.e_cyclic, stores.e_initial)`. -/
def storeStart (S : ℕ) (s : Store) : ℚ :=
  if s.e_cyclic then s.e (S - 1) else s.e_initial

/-- Line 239: `previous_e = stand_eff * pnl.e.shift().fillna(start)`. -/
def storePrev (S : ℕ) (w : ℕ → ℕ) (s : Store) (t : ℕ) : ℚ :=
  (1 - s.standing_loss) ^ (w t) * (if t = 0 then storeStart S s else s.e (t - 1))

/-- Line 241: the emitted deviation `previous_e - pnl.p - pnl.e`.  The net
power is subtracted as a raw rate: it is not multiplied by the snapshot
weighting `eh` computed on line 235. -/
def storeDeviation (S : ℕ) (w : ℕ → ℕ) (s : Store) (t : ℕ) : ℚ :=
  storePrev S w s t - s.p t - s.e t

/-- Modelled from the spec: the store recurrence of section 4.4 applied
without the store/dispatch split and spill term, in which the net power is
scaled by the snapshot weight to convert the power rate to energy. -/
def storeDeviationSpec (S : ℕ) (w : ℕ → ℕ) (s : Store) (t : ℕ) : ℚ :=
  storePrev S w s t - (w t : ℚ) * s.p t - s.e t

/-- Lines 223-242; none when the store index is empty (line 229). -/
def describe_store_contraints (stores : List (String × Store)) (S : ℕ) (w : ℕ → ℕ) :
    Option (List (String × List ℚ)) :=
  if stores.isEmpty then none
  else some (stores.map (fun sp => (sp.1, (List.range S).map (storeDeviation S w sp.2))))

/-- A store over one snapshot of weight 2: no losses, non-cyclic, initial
energy 10, net power 1, reported energy 9. -/
def c4store : Store :=
  { standing_loss := 0, e_cyclic := false, e_initial := 10,
    p := fun _ => 1, e := fun _ => 9 }

/-! ## Dispatch limit checker (lines 188-220), directional kinds -/

/-- A Line, Transformer or Link entity: its optimised nominal capacity, dense
availability profile and origin-end flow series. -/
structure Branch where
  nom_opt : ℚ
  max_pu : ℕ → ℚ
  p0 : ℕ → ℚ

/-- Lines 197-200: the panel `n.df(c)[attr + '_opt'] * max_pu - p0` whose
minimum is reported as the Upper Limit. -/
def upper_dispatch_headroom (b : Branch) (t : ℕ) : ℚ :=
  b.nom_opt * b.max_pu t - b.p0 t

/-- Lines 210-213: the panel `n.df(c)[attr + '_opt'] * max_pu + p0` whose
minimum is reported for directional kinds by the lower check. -/
def lower_dispatch_headroom (b : Branch) (t : ℕ) : ℚ :=
  b.nom_opt * b.max_pu t + b.p0 t

/-- Lines 188-201 restricted to one directional kind. -/
def describe_upper_dispatch_constraints (bs : List Branch) (S : ℕ) : Option ℚ :=
  listMin ((bs.map (fun b => (List.range S).map (upper_dispatch_headroom b))).flatten)

/-- Lines 204-220 restricted to one directional kind. -/
def describe_lower_dispatch_constraints (bs : List Branch) (S : ℕ) : Option ℚ :=
  listMin ((bs.map (fun b => (List.range S).map (lower_dispatch_headroom b))).flatten)

/-! ## Cycle flow checker (`describe_cycle_constraints`, lines 245-257) -/

/-- A line entity as read by the cycle checker. -/
structure CycLine where
  name : String
  carrier : String
  x_pu_eff : ℚ
  r_pu_eff : ℚ

/-- Lines 246-247: `weightings = n.lines.x_pu_eff.where(n.lines.carrier ==
'AC', n.lines.r_pu_eff)`. -/
def lineWeighting (l : CycLine) : ℚ :=
  if l.carrier == "AC" then l.x_pu_eff else l.r_pu_eff

def lineWeight (lines : List CycLine) (nm : String) : ℚ :=
  ((lines.find? (fun l => l.name == nm)).map lineWeighting).getD 0

/-- A sub-network: the ids of its lines and its dense cycle matrix C (one row
per line, one column per independent cycle). -/
structure SubNetwork where
  lines_i : List String
  C : List (List ℚ)

/-- pandas `DataFrame.empty`: an axis of length zero.  A tree-topology
sub-network has lines but zero cycle columns. -/
def matrixEmpty (m : List (List ℚ)) : Bool :=
  m.isEmpty || (m.headD []).isEmpty

/-- The slice of the network read by the cycle checker. -/
structure CycleNetwork where
  lines : List CycLine
  sub_networks : List SubNetwork
  p0 : String → ℕ → ℚ
  S : ℕ

/-- Lines 253-254: `C_weighted = 1e5 * C.mul(weightings)` applied to the
origin-end flows, giving one row per independent cycle and one entry per
snapshot. -/
def cycleFlowTable (n : CycleNetwork) (sub : SubNetwork) : List (List ℚ) :=
  (List.range (sub.C.headD []).length).map (fun cyc =>
    (List.range n.S).map (fun t =>
      ((sub.lines_i.zip sub.C).map (fun lr =>
        100000 * lineWeight n.lines lr.1 * lr.2.getD cyc 0 * n.p0 lr.1 t)).sum))

/-- Lines 249-254: `cycle_flow` returns None when the sub-network's cycle
matrix is empty. -/
def cycle_flow (n : CycleNetwork) (sub : SubNetwork) : Option (List (List ℚ)) :=
  if matrixEmpty sub.C then none else some (cycleFlowTable n sub)

/-- `pd.concat` over a list that may hold None entries: None entries are
dropped, but concat raises when the list is empty or every entry is None. -/
def pdConcat {α : Type} (objs : List (Option α)) : Except String (List α) :=
  if objs.isEmpty then Except.error ("No objects to concatenate")
  else
    let kept := objs.filterMap id
    if kept.isEmpty then Except.error ("All objects passed were None")
    else Except.ok kept

/-- Lines 256-257: concatenate the per-sub-network cycle-flow tables. -/
def describe_cycle_constraints (n : CycleNetwork) :
    Except String (List (List (List ℚ))) :=
  pdConcat (n.sub_networks.map (fun sub => cycle_flow n sub))

def treeSub : SubNetwork := { lines_i := ["l1", "l2"], C := [[], []] }

def cycSub : SubNetwork := { lines_i := ["a", "b", "c"], C := [[1], [1], [1]] }

def cycLines : List CycLine :=
  [⟨"l1", "AC", 1, 1⟩, ⟨"l2", "AC", 1, 1⟩, ⟨"a", "AC", 1, 1⟩, ⟨"b", "AC", 1, 1⟩,
   ⟨"c", "AC", 1, 1⟩]

/-- A network whose single sub-network is a tree (no independent cycles). -/
def treeNet : CycleNetwork :=
  { lines := cycLines, sub_networks := [treeSub], p0 := fun _ _ => 0, S := 1 }

/-- A network with one tree sub-network and one sub-network with a cycle. -/
def mixedNet : CycleNetwork :=
  { lines := cycLines, sub_networks := [treeSub, cycSub], p0 := fun _ _ => 0, S := 1 }

/-! ## Curtailment calculator (`calculate_curtailment`, lines 109-115)

Exact rational arithmetic extended with the IEEE special values produced by a
division by zero: not-a-number for 0/0 and a signed infinity otherwise. -/

/-- A float value as observable in the curtailment output. -/
inductive PFloat where
  | nan : PFloat
  | inf : Bool → PFloat
  | val : ℚ → PFloat
deriving DecidableEq

/-- `round(x, 3)` with ties to even, the numpy rounding rule. -/
def round3 (q : ℚ) : ℚ :=
  let x := q * 1000
  let f : ℤ := ⌊x⌋
  let r : ℚ := x - f
  (if r < 1 / 2 then (f : ℚ)
   else if 1 / 2 < r then (f : ℚ) + 1
   else if f % 2 = 0 then (f : ℚ) else (f : ℚ) + 1) / 1000

/-- Division as pandas/numpy perform it: finite by exact division, 0/0 gives
not-a-number, and division of a nonzero value by (positive) zero gives an
infinity carrying the sign of the numerator. -/
def pdDiv (a b : ℚ) : PFloat :=
  if b = 0 then
    (if a = 0 then PFloat.nan
     else if 0 < a then PFloat.inf true else PFloat.inf false)
  else PFloat.val (a / b)

/-- Scaling by a rational constant, preserving the special values. -/
def pfMul : PFloat → ℚ → PFloat
  | PFloat.nan, _ => PFloat.nan
  | PFloat.inf s, c => if 0 < c then PFloat.inf s else if c < 0 then PFloat.inf (!s) else PFloat.nan
  | PFloat.val q, c => PFloat.val (q * c)

/-- `.round(3)`, which leaves not-a-number and the infinities unchanged. -/
def pfRound3 : PFloat → PFloat
  | PFloat.val q => PFloat.val (round3 q)
  | x => x

/-- A generator that has an availability profile (a column of
`n.generators_t.p_max_pu`). -/
structure CurtGen where
  name : String
  carrier : String
  p_nom_opt : ℚ
  p_max_pu : List ℚ
  p : List ℚ
deriving DecidableEq

/-- Lines 110-112: `(max_pu.multiply(p_nom_opt).sum()).groupby(carrier).sum()`. -/
def availEnergy (gens : List CurtGen) (c : String) : ℚ :=
  ((gens.filter (fun g => g.carrier == c)).map
    (fun g => (g.p_max_pu.map (fun x => x * g.p_nom_opt)).sum)).sum

/-- Lines 113-114: dispatched energy of the profiled generators, grouped by
carrier. -/
def usedEnergy (gens : List CurtGen) (c : String) : ℚ :=
  ((gens.filter (fun g => g.carrier == c)).map (fun g => g.p.sum)).sum

/-- Line 115: `((avail - used)/avail)*100).round(3)` for one carrier. -/
def curtailPercent (gens : List CurtGen) (c : String) : PFloat :=
  pfRound3 (pfMul (pdDiv (availEnergy gens c - usedEnergy gens c) (availEnergy gens c)) 100)

/-- Lines 109-115: the per-carrier curtailment percentages. -/
def calculate_curtailment (gens : List CurtGen) : List (String × PFloat) :=
  ((gens.map (fun g => g.carrier)).dedup).map (fun c => (c, curtailPercent gens c))

/-- One carrier with zero available energy and nonzero dispatch. -/
def c8zero : List CurtGen :=
  [{ name := "g1", carrier := "pv", p_nom_opt := 1, p_max_pu := [0], p := [5] }]

/-- One carrier with available energy 3 and used energy 2. -/
def c8gens : List CurtGen :=
  [{ name := "g2", carrier := "wind", p_nom_opt := 2, p_max_pu := [1, 1 / 2], p := [1, 1] }]

/-! ## Tolerance aggregator (`check_constraints`, lines 275-296)

One row of the aggregated statistics table: the check's name and its Min and
Max statistics; none models a NaN entry (for example the Spillage Limit
column, which only reports a minimum).  A NaN compares False against the
query's bounds, as in pandas. -/

structure StatRow where
  name : String
  min : Option ℚ
  max : Option ℚ
deriving DecidableEq

def optLt (x : Option ℚ) (b : ℚ) : Bool :=
  match x with
  | some m => decide (m < b)
  | none => false

def optGt (x : Option ℚ) (b : ℚ) : Bool :=
  match x with
  | some m => decide (b < m)
  | none => false

/-- Line 294: the predicate of `query('Min < -@tol | Max > @tol')`. -/
def rowViolates (tol : ℚ) (r : StatRow) : Bool :=
  optLt r.min (-tol) || optGt r.max tol

/-- Lines 292-296, parameterized by the aggregated statistics table: the
violating subset is selected and the assertion raises with it when it is
nonempty. -/
def check_constraints (stats : List StatRow) (tol : ℚ) : Except (List StatRow) Unit :=
  let condition := stats.filter (fun r => rowViolates tol r)
  if condition = [] then Except.ok () else Except.error condition

/-! ## Theorems -/

/-- Helper: the boolean row predicate of the violation query agrees with its
propositional reading; a missing (NaN) statistic never violates. -/
theorem rowViolates_iff (tol : ℚ) (r : StatRow) :
    rowViolates tol r = true ↔
      ((∃ m, r.min = some m ∧ m < -tol) ∨ (∃ M, r.max = some M ∧ tol < M)) := by
  obtain ⟨nm, mn, mx⟩ := r
  cases mn <;> cases mx <;> simp [rowViolates, optLt, optGt]

/-- Claim C1: the per-driver operational cost is claimed to be the scalar
marginal cost times the clipped dispatch plus the time-varying marginal-cost
panel times the clipped dispatch.  On a generator with scalar cost 3,
dispatch 2 and time-varying cost 7 the code returns 6 + 4 = 10 (it multiplies
the clipped dispatch by itself instead of by the cost panel), while the
claimed sum is 6 + 14 = 20. -/
theorem operational_cost_time_varying_bug :
    calculate_operational_cost opNetTV =
      Except.ok (⟨10, [("generators__p", 10)], 0⟩, opNetTV) ∧
    (10 : ℚ) ≠ 3 * 2 + 7 * 2 := by
  constructor
  · norm_num [calculate_operational_cost, opNetTV, c1gen, clipPanel, scalarDriverCost,
      timeDriverCost, lookupQ, commitmentCost, transCount, List.find?]
  · norm_num

/-- Claim C2: the storage-unit deviation is reconstructed minus reported
state, and the reconstruction follows the weighted loss/efficiency recurrence
with the per-entity cyclic selection of the first previous state. -/
theorem storage_unit_reconstruction (S : ℕ) (w : ℕ → ℕ) (u : StorageUnit) (t : ℕ)
    (ht : t < S) :
    suDeviation S w u t = suReconstructed S w u t - u.state_of_charge t ∧
    suReconstructed S w u t =
      (1 - u.standing_loss) ^ w t *
        (if t = 0 then
          (if u.cyclic_state_of_charge then u.state_of_charge (S - 1)
           else u.state_of_charge_initial)
         else u.state_of_charge (t - 1))
      + (w t : ℚ) * u.efficiency_store * u.p_store t
      + (w t : ℚ) * u.inflow t
      - (w t : ℚ) * (1 / u.efficiency_dispatch) * u.p_dispatch t
      - (w t : ℚ) * u.spill t := by
  refine ⟨rfl, ?_⟩
  simp only [suReconstructed, suPrev, suStart, standEff, suStoreTerm, suInflowTerm,
    suDispatchTerm, suSpillTerm]
  ring

/-- Witness for C2: the spec scenario.  The reconstructed states are
[15, 12, 12] and the deviations vanish when the reported states match. -/
theorem storage_unit_reconstruction_witness :
    ((List.range 3).map (suReconstructed 3 (fun _ => 1) scenarioUnit) = [15, 12, 12]) ∧
    ((List.range 3).map (suDeviation 3 (fun _ => 1) scenarioUnit) = [0, 0, 0]) ∧
    suDeviation 3 (fun _ => 1) scenarioUnit 0 =
      suReconstructed 3 (fun _ => 1) scenarioUnit 0 - scenarioUnit.state_of_charge 0 :=
  ⟨by norm_num [suReconstructed, suPrev, suStart, standEff, suStoreTerm, suInflowTerm,
     suDispatchTerm, suSpillTerm, scenarioUnit, List.range_succ],
   by norm_num [suDeviation, suReconstructed, suPrev, suStart, standEff, suStoreTerm,
     suInflowTerm, suDispatchTerm, suSpillTerm, scenarioUnit, List.range_succ],
   (storage_unit_reconstruction 3 (fun _ => 1) scenarioUnit 0 (by decide)).1⟩

/-- Claim C3: `check_constraints` raises, with the violating rows as payload,
exactly when some check's minimum is strictly below -tol or its maximum is
strictly above tol; a maximum equal to tol passes and tol + eps fails. -/
theorem check_constraints_spec (stats : List StatRow) (tol ε : ℚ) (hε : 0 < ε) :
    ((∃ viol, check_constraints stats tol = Except.error viol ∧
        viol = stats.filter (fun r => rowViolates tol r) ∧ viol ≠ []) ↔
      ∃ r ∈ stats, (∃ m, r.min = some m ∧ m < -tol) ∨ (∃ M, r.max = some M ∧ tol < M)) ∧
    check_constraints [⟨"Soc Balance Store", none, some tol⟩] tol = Except.ok () ∧
    check_constraints [⟨"Soc Balance Store", none, some (tol + ε)⟩] tol =
      Except.error [⟨"Soc Balance Store", none, some (tol + ε)⟩] := by
  refine ⟨⟨?_, ?_⟩, ?_, ?_⟩
  · rintro ⟨viol, hv, hveq, hne⟩
    obtain ⟨r, hr⟩ := List.exists_mem_of_ne_nil viol hne
    rw [hveq] at hr
    have hmem := List.mem_filter.mp hr
    exact ⟨r, hmem.1, (rowViolates_iff tol r).mp hmem.2⟩
  · rintro ⟨r, hr, hviol⟩
    have hmem : r ∈ stats.filter (fun r => rowViolates tol r) :=
      List.mem_filter.mpr ⟨hr, (rowViolates_iff tol r).mpr hviol⟩
    have hne : stats.filter (fun r => rowViolates tol r) ≠ [] := by
      intro h0
      rw [h0] at hmem
      exact List.not_mem_nil r hmem
    refine ⟨stats.filter (fun r => rowViolates tol r), ?_, rfl, hne⟩
    simp [check_constraints, hne]
  · have h1 : rowViolates tol ⟨"Soc Balance Store", none, some tol⟩ = false := by
      simp [rowViolates, optLt, optGt]
    simp [check_constraints, List.filter_cons, h1]
  · have hlt : tol < tol + ε := by linarith
    have h1 : rowViolates tol ⟨"Soc Balance Store", none, some (tol + ε)⟩ = true := by
      simp [rowViolates, optLt, optGt, hlt]
    simp [check_constraints, List.filter_cons, h1]

/-- Witness for C3: a single check whose maximum sits exactly at the tolerance
passes. -/
theorem check_constraints_spec_witness :
    check_constraints [⟨"Soc Balance Store", none, some 5⟩] 5 = Except.ok () :=
  (check_constraints_spec [] 5 1 (by norm_num)).2.1

/-- Claim C4: the store deviation is claimed to subtract the weight-scaled net
power; the code subtracts the raw power rate.  On one store over a snapshot of
weight 2 with net power 1, initial energy 10 and reported energy 9, the code's
deviation is 0 while the claimed recurrence gives -1. -/
theorem store_deviation_unweighted_power :
    storeDeviation 1 (fun _ => 2) c4store 0 = 0 ∧
    storeDeviationSpec 1 (fun _ => 2) c4store 0 = -1 ∧
    describe_store_contraints [("store1", c4store)] 1 (fun _ => 2) =
      some [("store1", [0])] := by
  refine ⟨?_, ?_, ?_⟩ <;>
    norm_num [storeDeviation, storeDeviationSpec, storePrev, storeStart, c4store,
      describe_store_contraints, List.range_succ]

/-- Claim C5: `calculate_operational_cost` is claimed to be a pure read; the
in-place clip of the dispatch panel changes the network state whenever a
panel holds a negative entry. -/
theorem operational_cost_mutates_network :
    calculate_operational_cost opNetMut =
      Except.ok (⟨0, [("generators__p", 0)], 0⟩, opNetMutAfter) ∧
    opNetMutAfter ≠ opNetMut := by
  constructor
  · norm_num [calculate_operational_cost, opNetMut, opNetMutAfter, c5gen, c5genAfter,
      clipPanel, scalarDriverCost, timeDriverCost, lookupQ, commitmentCost, transCount,
      List.find?]
  · norm_num [opNetMutAfter, opNetMut, c5genAfter, c5gen]

/-- Claim C6: a missing storage-units or stores kind is indeed skipped with
zero contribution, but a network without the generators kind is fatal: the
commitment block dereferences the status panel unconditionally. -/
theorem operational_cost_missing_kind :
    calculate_operational_cost opNetNoStores =
      Except.ok (⟨1, [("generators__p", 1), ("storage_units__p", 0)], 0⟩, opNetNoStores) ∧
    List.lookup ("stores__p")
      ([("generators__p", (1 : ℚ)), ("storage_units__p", 0)]) = none ∧
    calculate_operational_cost opNetNoGens =
      Except.error ("AttributeError: no generators component") := by
  refine ⟨?_, rfl, ?_⟩ <;>
    norm_num [calculate_operational_cost, opNetNoStores, opNetNoGens, c6gen, c6su,
      clipPanel, scalarDriverCost, timeDriverCost, lookupQ, commitmentCost, transCount,
      List.find?]

/-- Claim C7: a sub-network without independent cycles yields None and is
dropped when some other sub-network has a cycle, but a network whose
sub-networks are all cycle-free makes the concatenation raise instead of
yielding an empty result. -/
theorem cycle_constraints_tree_fatal :
    describe_cycle_constraints treeNet = Except.error ("All objects passed were None") ∧
    describe_cycle_constraints mixedNet = Except.ok [[[0]]] := by
  constructor <;>
    norm_num [describe_cycle_constraints, pdConcat, cycle_flow, matrixEmpty,
      cycleFlowTable, treeNet, mixedNet, treeSub, cycSub, cycLines, lineWeight,
      lineWeighting, List.find?, List.range_succ, List.filterMap_cons,
      List.isEmpty_cons, List.isEmpty_nil, List.cons_ne_nil]

/-- Counterexample for C8: a carrier with zero available energy but nonzero
dispatch yields a signed infinity, not not-a-number. -/
theorem curtailment_zero_avail_counterexample :
    calculate_curtailment c8zero = [("pv", PFloat.inf false)] ∧
    PFloat.inf false ≠ PFloat.nan := by
  constructor
  · norm_num [calculate_curtailment, curtailPercent, availEnergy, usedEnergy, pdDiv,
      pfMul, pfRound3, c8zero, List.dedup_cons_of_not_mem]
  · simp

/-- Claim C8 (amended): every carrier with an availability profile gets the
rounded percentage (available - used)/available * 100; when the available
energy is zero the result is non-finite and no exception is raised:
not-a-number when the used energy is also zero, and a signed infinity
otherwise. -/
theorem curtailment_amended (gens : List CurtGen) (c : String)
    (hc : c ∈ (gens.map (fun g => g.carrier)).dedup) :
    (c, curtailPercent gens c) ∈ calculate_curtailment gens ∧
    curtailPercent gens c =
      pfRound3 (pfMul (pdDiv (availEnergy gens c - usedEnergy gens c)
        (availEnergy gens c)) 100) ∧
    (availEnergy gens c = 0 → usedEnergy gens c = 0 →
      curtailPercent gens c = PFloat.nan) ∧
    (availEnergy gens c = 0 → usedEnergy gens c ≠ 0 →
      ∃ s, curtailPercent gens c = PFloat.inf s) := by
  refine ⟨List.mem_map.mpr ⟨c, hc, rfl⟩, rfl, ?_, ?_⟩
  · intro h0 hu
    norm_num [curtailPercent, pdDiv, pfMul, pfRound3, h0, hu]
  · intro h0 hu
    by_cases hpos : usedEnergy gens c < 0
    · exact ⟨true, by norm_num [curtailPercent, pdDiv, pfMul, pfRound3, h0, hu, hpos]⟩
    · exact ⟨false, by norm_num [curtailPercent, pdDiv, pfMul, pfRound3, h0, hu, hpos]⟩

/-- Witness for C8: a profiled wind carrier receives its rounded percentage
entry in the output. -/
theorem curtailment_amended_witness :
    (("wind"), curtailPercent c8gens ("wind")) ∈ calculate_curtailment c8gens :=
  (curtailment_amended c8gens ("wind") (by simp [List.mem_dedup, c8gens])).1

/-- Claim C9: for every directional entity and snapshot, the upper headroom
plus the lower headroom equals twice the optimised capacity times the
availability. -/
theorem upper_lower_headroom_sum (b : Branch) (t : ℕ) :
    upper_dispatch_headroom b t + lower_dispatch_headroom b t =
      2 * b.nom_opt * b.max_pu t := by
  simp only [upper_dispatch_headroom, lower_dispatch_headroom]
  ring

/-- Claim C10: with at least one storage unit the description always carries
the Spillage Limit statistic -- the minimum over all (entity, snapshot) pairs
of weighted inflow minus weighted spill -- and a missing store/dispatch
decomposition only suppresses the SOC-balance column. -/
theorem spillage_limit_always_emitted (net : SUNetwork) (h : net.units ≠ []) :
    ∃ d, describe_storage_unit_contraints net = some d ∧
      d.spillage_limit = listMin ((net.units.map (fun u => (List.range net.S).map (fun t =>
        suInflowTerm net.weight u t - suSpillTerm net.weight u t))).flatten) ∧
      (net.has_p_store = false → d.soc_balance = none) := by
  have h' : net.units.isEmpty = false := by
    cases hu : net.units with
    | nil => exact absurd hu h
    | cons a l => rfl
  refine ⟨{ spillage_limit := listMin (spillagePanel net),
            soc_balance := if net.has_p_store then some (socBalancePanel net) else none },
          ?_, rfl, ?_⟩
  · simp [describe_storage_unit_contraints, h']
  · intro hp
    rw [hp]
    simp

/-- Witness for C10: a single unit with the decomposition panels absent still
receives the Spillage Limit statistic. -/
theorem spillage_limit_always_emitted_witness :
    ∃ d, describe_storage_unit_contraints c10net = some d ∧
      d.spillage_limit = listMin ((c10net.units.map (fun u =>
        (List.range c10net.S).map (fun t =>
          suInflowTerm c10net.weight u t - suSpillTerm c10net.weight u t))).flatten) ∧
      (c10net.has_p_store = false → d.soc_balance = none) :=
  spillage_limit_always_emitted c10net (by exact List.cons_ne_nil _ _)

end PyPSA
